import Mathlib

/-!
Verification of the `aws_athena_info` Ansible module (src/aws_athena_info.py).

The module is a parameter-driven dispatcher over four read-only Athena list
operations (data catalogs, databases, table metadata, work groups), followed
by a flatten-and-rename step that converts wire-format keys to snake_case.

The embedding below models:
* JSON-like wire values (`Value`) and records (assoc lists of key/value),
* the key normalizer `camel_dict_to_snake_dict` (external utility, modelled
  from the spec),
* the module parameters, the Ansible argument validation configured in
  `main` (mutually-exclusive tuples and required-if rules, presence based,
  modelled from the spec and the documented framework semantics),
* the service as an oracle (`Athena`) supplying page iterators, the single
  work-groups response, and a possible client error,
* `_athena` (the decorated fetch function with its try/except) and the
  record-collecting loops of `main`, as the total function `run`.
-/

/-- A JSON-like wire value: strings, numbers, mappings and sequences. -/
inductive Value where
  | str : String → Value
  | num : Nat → Value
  | dict : List (String × Value) → Value
  | list : List Value → Value

/-- A wire record: an ordered mapping from string keys to values. -/
abbrev Record := List (String × Value)

/-- Is `c` an ASCII uppercase letter. -/
def isUpperAscii (c : Char) : Bool := 65 ≤ c.toNat && c.toNat ≤ 90

/-- Is `c` an ASCII lowercase letter. -/
def isLowerAscii (c : Char) : Bool := 97 ≤ c.toNat && c.toNat ≤ 122

/-- Is `c` an ASCII digit. -/
def isDigitAscii (c : Char) : Bool := 48 ≤ c.toNat && c.toNat ≤ 57

/-- Lowercase an ASCII uppercase letter, leave every other character alone. -/
def lowerAscii (c : Char) : Char :=
  if isUpperAscii c then Char.ofNat (c.toNat + 32) else c

/-- A character that may appear in a snake_case key: an ASCII lowercase
letter, an ASCII digit, or the underscore. -/
def isSnakeChar (c : Char) : Bool :=
  isLowerAscii c || isDigitAscii c || c.toNat == 95

/-- A snake_case string: every character is lowercase, a digit or an
underscore. -/
def isSnakeString (s : String) : Bool := s.data.all isSnakeChar

/-- Modelled from the spec: the character loop of the camel-to-snake key
renaming used by the external `camel_dict_to_snake_dict` utility (whose
source is not part of this repository).  The flag records whether the
previous character was a lowercase letter or a digit; an uppercase letter is
lowercased, and preceded by an underscore when it follows a lowercase letter
or a digit. -/
def camelSnakeGo : Bool → List Char → List Char
  | _, [] => []
  | afterLower, c :: rest =>
    if isUpperAscii c then
      (if afterLower then [Char.ofNat 95, lowerAscii c] else [lowerAscii c])
        ++ camelSnakeGo false rest
    else
      c :: camelSnakeGo (isLowerAscii c || isDigitAscii c) rest

/-- Modelled from the spec: rename one key from the wire's mixed/camel
convention to snake_case. -/
def camelToSnake (s : String) : String := ⟨camelSnakeGo false s.data⟩

mutual

/-- Modelled from the spec: normalize one wire value — rename keys of
nested mappings recursively, descend through sequences, leave scalars
alone. -/
def snakeValue : Value → Value
  | Value.str s => Value.str s
  | Value.num n => Value.num n
  | Value.dict kvs => Value.dict (snakeKVs kvs)
  | Value.list vs => Value.list (snakeVals vs)

/-- Modelled from the spec: normalize the key/value pairs of a mapping. -/
def snakeKVs : List (String × Value) → List (String × Value)
  | [] => []
  | (k, v) :: rest => (camelToSnake k, snakeValue v) :: snakeKVs rest

/-- Modelled from the spec: normalize each element of a sequence. -/
def snakeVals : List Value → List Value
  | [] => []
  | v :: rest => snakeValue v :: snakeVals rest

end

/-- Modelled from the spec: the external key-renaming normalizer applied to
one record — every key, recursively through nested mappings and sequences
of mappings, is renamed to snake_case. -/
def camel_dict_to_snake_dict (r : Record) : Record := snakeKVs r

mutual

/-- All keys reachable in a value, through nested mappings and sequences,
are already snake_case. -/
def snakeKeysValue : Value → Bool
  | Value.str _ => true
  | Value.num _ => true
  | Value.dict kvs => snakeKeysKVs kvs
  | Value.list vs => snakeKeysVals vs

/-- All keys of a mapping, recursively, are already snake_case. -/
def snakeKeysKVs : List (String × Value) → Bool
  | [] => true
  | (k, v) :: rest => isSnakeString k && snakeKeysValue v && snakeKeysKVs rest

/-- All keys reachable in the elements of a sequence are already
snake_case. -/
def snakeKeysVals : List Value → Bool
  | [] => true
  | v :: rest => snakeKeysValue v && snakeKeysVals rest

end

theorem isSnakeChar_not_upper (c : Char) (h : isSnakeChar c = true) :
    isUpperAscii c = false := by
  simp only [isSnakeChar, isLowerAscii, isDigitAscii, Bool.or_eq_true,
    Bool.and_eq_true, decide_eq_true_eq, beq_iff_eq] at h
  simp only [isUpperAscii, Bool.and_eq_false_iff, decide_eq_false_iff_not,
    not_le]
  omega

theorem camelSnakeGo_fixed (l : List Char) (h : ∀ c ∈ l, isSnakeChar c = true) :
    ∀ b, camelSnakeGo b l = l := by
  induction l with
  | nil => intro b; rfl
  | cons c rest ih =>
    intro b
    have hc : isSnakeChar c = true := h c (List.mem_cons_self c rest)
    have hrest : ∀ x ∈ rest, isSnakeChar x = true := by
      intro x hx; exact h x (List.mem_cons_of_mem c hx)
    unfold camelSnakeGo
    rw [isSnakeChar_not_upper c hc]
    simp [ih hrest]

theorem camelToSnake_fixed (s : String) (h : isSnakeString s = true) :
    camelToSnake s = s := by
  unfold camelToSnake
  have hall : ∀ c ∈ s.data, isSnakeChar c = true := by
    simpa [isSnakeString, List.all_eq_true] using h
  rw [camelSnakeGo_fixed s.data hall false]

mutual

theorem snakeValue_fixed : ∀ v : Value, snakeKeysValue v = true → snakeValue v = v
  | Value.str _, _ => rfl
  | Value.num _, _ => rfl
  | Value.dict kvs, h => by
    unfold snakeValue
    rw [snakeKVs_fixed kvs (by simpa [snakeKeysValue] using h)]
  | Value.list vs, h => by
    unfold snakeValue
    rw [snakeVals_fixed vs (by simpa [snakeKeysValue] using h)]

theorem snakeKVs_fixed : ∀ kvs : List (String × Value),
    snakeKeysKVs kvs = true → snakeKVs kvs = kvs
  | [], _ => rfl
  | (k, v) :: rest, h => by
    have h' : isSnakeString k = true ∧ snakeKeysValue v = true ∧
        snakeKeysKVs rest = true := by
      simpa [snakeKeysKVs, Bool.and_eq_true, and_assoc] using h
    unfold snakeKVs
    rw [camelToSnake_fixed k h'.1, snakeValue_fixed v h'.2.1,
      snakeKVs_fixed rest h'.2.2]

theorem snakeVals_fixed : ∀ vs : List Value,
    snakeKeysVals vs = true → snakeVals vs = vs
  | [], _ => rfl
  | v :: rest, h => by
    have h' : snakeKeysValue v = true ∧ snakeKeysVals rest = true := by
      simpa [snakeKeysVals, Bool.and_eq_true] using h
    unfold snakeVals
    rw [snakeValue_fixed v h'.1, snakeVals_fixed rest h'.2]

end

/-- The module parameters of `aws_athena_info`.  A field holds `none` when
the invocation did not supply the option at all, and `some v` when it was
supplied with value `v`; the Ansible mutual-exclusion check counts supplied
options regardless of their value. -/
structure Params where
  name : Option String
  database_name : Option String
  list_databases : Option Bool
  list_database_tables : Option Bool
  list_work_groups : Option Bool

/-- A boto page iterator, as observed by the pagination loop: the pages it
yields in order, and, when `tailError` is set, a service error raised during
iteration after those pages were produced. -/
structure PageIter where
  pages : List Record
  tailError : Option String

/-- What `_athena` hands back to `main`: either a page iterator (the
paginated operations) or the raw response dictionary of the single
non-paginated `list_work_groups` call. -/
inductive FetchResult where
  | iter : PageIter → FetchResult
  | single : Record → FetchResult

/-- The external Athena service, as an oracle: a possible error raised while
obtaining the client, whether `list_work_groups` supports pagination, the
page iterators for each paginated operation (keyed by the request
parameters), and the outcome of the single non-paginated work-groups
call. -/
structure Athena where
  clientError : Option String
  canPaginateListWorkGroups : Bool
  listDatabasesIter : String → PageIter
  listTableMetadataIter : String → String → PageIter
  listWorkGroupsIter : PageIter
  listWorkGroupsCall : Except String Record
  listDataCatalogsIter : PageIter

/-- The observable outcome of one module invocation: a validation failure
(before any network call), a `fail_json_aws` failure with its diagnostic, an
uncaught exception, or a successful exit with one output key and its
records. -/
inductive RunResult where
  | validationFail : String → RunResult
  | awsFail : String → RunResult
  | crash : String → RunResult
  | exits : String → List Value → RunResult

/-- Python truthiness of an optional boolean parameter: true only when the
option was supplied as true. -/
def truthy (o : Option Bool) : Bool := o.getD false

/-- How many of the three mode flags were supplied (with any value). -/
def presentCount (p : Params) : Nat :=
  (if p.list_databases.isSome then 1 else 0)
    + (if p.list_database_tables.isSome then 1 else 0)
    + (if p.list_work_groups.isSome then 1 else 0)

/-- Modelled from the spec: the argument validation configured in `main` via
`mutually_exclusive` and `required_if` (the framework code is not part of
this repository).  Mutual exclusion fires on options that were supplied,
regardless of value; `required_if` fires when the trigger option equals
true and a required option is absent.  Returns the first diagnostic, or
`none` when validation passes. -/
def validationError (p : Params) : Option String :=
  if 1 < presentCount p then
    some ("parameters are mutually exclusive: list_databases, list_database_tables, list_work_groups")
  else if p.name.isSome && p.list_work_groups.isSome then
    some ("parameters are mutually exclusive: name, list_work_groups")
  else if p.database_name.isSome && p.list_work_groups.isSome then
    some ("parameters are mutually exclusive: database_name, list_work_groups")
  else if p.list_databases == some true && !p.name.isSome then
    some ("list_databases is True but all of the following are missing: name")
  else if p.list_database_tables == some true && (!p.name.isSome || !p.database_name.isSome) then
    some ("list_database_tables is True but some of the following are missing: name, database_name")
  else none

/-- The diagnostic attached by `module.fail_json_aws(e, msg=...)`. -/
def awsDiag (e : String) : String := ("Failed to fetch aws athena details: ") ++ e

/-- The fetch function `_athena` of the module: obtains the client, selects
one of the four list operations from the flags, and returns the page
iterator (or, for non-paginatable work groups, the raw single response).
Errors raised inside it — obtaining the client, or the single work-groups
network call — are caught and converted by `fail_json_aws`, modelled as
`Except.error`.  Building a page iterator performs no network activity, so
no other error can arise here. -/
def _athena (s : Athena) (p : Params) : Except String FetchResult :=
  match s.clientError with
  | some e => Except.error (awsDiag e)
  | none =>
    if truthy p.list_databases then
      Except.ok (FetchResult.iter (s.listDatabasesIter (p.name.getD "")))
    else if truthy p.list_database_tables then
      Except.ok (FetchResult.iter
        (s.listTableMetadataIter (p.name.getD "") (p.database_name.getD "")))
    else if truthy p.list_work_groups then
      if s.canPaginateListWorkGroups then
        Except.ok (FetchResult.iter s.listWorkGroupsIter)
      else
        match s.listWorkGroupsCall with
        | Except.ok resp => Except.ok (FetchResult.single resp)
        | Except.error e => Except.error (awsDiag e)
    else
      Except.ok (FetchResult.iter s.listDataCatalogsIter)

/-- Python dictionary lookup on a record. -/
def lookupKey (key : String) : Record → Option Value
  | [] => none
  | (k, v) :: rest => if k = key then some v else lookupKey key rest

/-- One step of the collection loop of `main`: `response[key]` must exist
and be a list, otherwise the loop raises. -/
def pageItems (key : String) (pg : Record) : Except String (List Value) :=
  match lookupKey key pg with
  | some (Value.list vs) => Except.ok vs
  | some _ => Except.error ("TypeError: value under result key is not a list")
  | none => Except.error ("KeyError: " ++ key)

/-- The pagination loop of `main`: walk the pages in order, normalizing the
records under `key` of each page; after the last yielded page, a pending
iterator error is raised uncaught.  Nothing collected is returned unless
every page succeeds. -/
def drivePages (key : String) : List Record → Option String → Except String (List Value)
  | [], none => Except.ok []
  | [], some e => Except.error e
  | pg :: rest, err =>
    match pageItems key pg with
    | Except.error e => Except.error e
    | Except.ok vs =>
      match drivePages key rest err with
      | Except.error e => Except.error e
      | Except.ok more => Except.ok (List.map snakeValue vs ++ more)

/-- Run one paginated collection loop of `main` and exit with the given
output key, or crash on an uncaught iteration error. -/
def driveExit (key outKey : String) (it : PageIter) : RunResult :=
  match drivePages key it.pages it.tailError with
  | Except.ok recs => RunResult.exits outKey recs
  | Except.error e => RunResult.crash e

/-- The whole module invocation (`main`): validation, then `_athena`, then
the flag-directed collection loops.  The work-groups branch of `main`
subscripts the value returned by `_athena` with the string key `WorkGroups`,
which only a dictionary supports: when `_athena` returned a page iterator,
this raises an uncaught `TypeError`. -/
def run (s : Athena) (p : Params) : RunResult :=
  match validationError p with
  | some m => RunResult.validationFail m
  | none =>
    match _athena s p with
    | Except.error m => RunResult.awsFail m
    | Except.ok res =>
      if truthy p.list_databases then
        match res with
        | FetchResult.iter it => driveExit ("DatabaseList") ("databases") it
        | FetchResult.single _ =>
          RunResult.crash ("TypeError: response is not iterable as pages")
      else if truthy p.list_database_tables then
        match res with
        | FetchResult.iter it => driveExit ("TableMetadataList") ("tables") it
        | FetchResult.single _ =>
          RunResult.crash ("TypeError: response is not iterable as pages")
      else if truthy p.list_work_groups then
        match res with
        | FetchResult.single resp =>
          match lookupKey ("WorkGroups") resp with
          | some (Value.list vs) =>
            RunResult.exits ("work_groups") (List.map snakeValue vs)
          | some _ =>
            RunResult.crash ("TypeError: value under WorkGroups is not a list")
          | none => RunResult.crash ("KeyError: WorkGroups")
        | FetchResult.iter _ =>
          RunResult.crash ("TypeError: PageIterator object is not subscriptable")
      else
        match res with
        | FetchResult.iter it => driveExit ("DataCatalogsSummary") ("catalogs") it
        | FetchResult.single _ =>
          RunResult.crash ("TypeError: response is not iterable as pages")

/-- The page carries the expected result key, bound to a list. -/
def goodPage (key : String) (pg : Record) : Bool :=
  match lookupKey key pg with
  | some (Value.list _) => true
  | _ => false

/-- The raw items under the result key of one page (empty if absent). -/
def rawItems (key : String) (pg : Record) : List Value :=
  match lookupKey key pg with
  | some (Value.list vs) => vs
  | _ => []

/-- The full normalized record set of a page sequence: every page's items,
flattened in order, each normalized to snake_case. -/
def allRecords (key : String) : List Record → List Value
  | [] => []
  | pg :: rest => List.map snakeValue (rawItems key pg) ++ allRecords key rest

theorem pageItems_ok_rawItems (key : String) (pg : Record) (vs : List Value)
    (h : pageItems key pg = Except.ok vs) : rawItems key pg = vs := by
  unfold pageItems at h
  unfold rawItems
  cases hlk : lookupKey key pg with
  | none => rw [hlk] at h; cases h
  | some v =>
    rw [hlk] at h
    cases v with
    | str s => cases h
    | num n => cases h
    | dict kvs => cases h
    | list vs2 => cases h; rfl

theorem pageItems_of_goodPage (key : String) (pg : Record)
    (h : goodPage key pg = true) :
    pageItems key pg = Except.ok (rawItems key pg) := by
  unfold goodPage at h
  unfold pageItems rawItems
  cases hlk : lookupKey key pg with
  | none => rw [hlk] at h; cases h
  | some v =>
    rw [hlk] at h
    cases v with
    | str s => cases h
    | num n => cases h
    | dict kvs => cases h
    | list vs2 => rfl

/-- The collection loop returns something only when the iterator raised no
error and every page was consumed: what it returns is the full normalized
record set, never a partial one. -/
theorem drivePages_ok (key : String) : ∀ (pages : List Record)
    (err : Option String) (recs : List Value),
    drivePages key pages err = Except.ok recs →
    err = none ∧ recs = allRecords key pages := by
  intro pages
  induction pages with
  | nil =>
    intro err recs h
    cases err with
    | none =>
      refine ⟨rfl, ?_⟩
      have : recs = [] := by
        simpa [drivePages] using h.symm
      simp [this, allRecords]
    | some e => simp [drivePages] at h
  | cons pg rest ih =>
    intro err recs h
    unfold drivePages at h
    cases hpi : pageItems key pg with
    | error e => rw [hpi] at h; cases h
    | ok vs =>
      rw [hpi] at h
      cases hdr : drivePages key rest err with
      | error e => rw [hdr] at h; cases h
      | ok more =>
        rw [hdr] at h
        cases h
        obtain ⟨herr, hmore⟩ := ih err more hdr
        refine ⟨herr, ?_⟩
        rw [allRecords, pageItems_ok_rawItems key pg vs hpi, hmore]

/-- When every page is well formed and the iterator raises no error, the
collection loop succeeds with the full normalized record set. -/
theorem drivePages_complete (key : String) : ∀ (pages : List Record),
    (∀ pg ∈ pages, goodPage key pg = true) →
    drivePages key pages none = Except.ok (allRecords key pages) := by
  intro pages
  induction pages with
  | nil => intro _; rfl
  | cons pg rest ih =>
    intro h
    have hpg : goodPage key pg = true := h pg (List.mem_cons_self pg rest)
    have hrest : ∀ x ∈ rest, goodPage key x = true := by
      intro x hx; exact h x (List.mem_cons_of_mem pg hx)
    unfold drivePages
    rw [pageItems_of_goodPage key pg hpg, ih hrest, allRecords]

/-- When the iterator raises an error after its pages, the collection loop
re-raises exactly that error (it is not converted to a diagnostic). -/
theorem drivePages_tail_error (key : String) : ∀ (pages : List Record)
    (e : String), (∀ pg ∈ pages, goodPage key pg = true) →
    drivePages key pages (some e) = Except.error e := by
  intro pages
  induction pages with
  | nil => intro e _; rfl
  | cons pg rest ih =>
    intro e h
    have hpg : goodPage key pg = true := h pg (List.mem_cons_self pg rest)
    have hrest : ∀ x ∈ rest, goodPage key x = true := by
      intro x hx; exact h x (List.mem_cons_of_mem pg hx)
    unfold drivePages
    rw [pageItems_of_goodPage key pg hpg, ih e hrest]

theorem run_validationFail (s : Athena) (p : Params) (m : String)
    (h : validationError p = some m) :
    run s p = RunResult.validationFail m := by
  unfold run
  rw [h]

theorem run_of_validation_ok (s : Athena) (p : Params)
    (h : validationError p = none) :
    run s p = (match _athena s p with
      | Except.error m => RunResult.awsFail m
      | Except.ok res =>
        if truthy p.list_databases then
          match res with
          | FetchResult.iter it => driveExit ("DatabaseList") ("databases") it
          | FetchResult.single _ =>
            RunResult.crash ("TypeError: response is not iterable as pages")
        else if truthy p.list_database_tables then
          match res with
          | FetchResult.iter it => driveExit ("TableMetadataList") ("tables") it
          | FetchResult.single _ =>
            RunResult.crash ("TypeError: response is not iterable as pages")
        else if truthy p.list_work_groups then
          match res with
          | FetchResult.single resp =>
            match lookupKey ("WorkGroups") resp with
            | some (Value.list vs) =>
              RunResult.exits ("work_groups") (List.map snakeValue vs)
            | some _ =>
              RunResult.crash ("TypeError: value under WorkGroups is not a list")
            | none => RunResult.crash ("KeyError: WorkGroups")
          | FetchResult.iter _ =>
            RunResult.crash ("TypeError: PageIterator object is not subscriptable")
        else
          match res with
          | FetchResult.iter it => driveExit ("DataCatalogsSummary") ("catalogs") it
          | FetchResult.single _ =>
            RunResult.crash ("TypeError: response is not iterable as pages")) := by
  unfold run
  rw [h]

theorem run_awsFail (s : Athena) (p : Params) (m : String)
    (hv : validationError p = none) (ha : _athena s p = Except.error m) :
    run s p = RunResult.awsFail m := by
  rw [run_of_validation_ok s p hv, ha]

/-- The result key, output key and page iterator of the mode selected when
`list_work_groups` is not truthy (the three modes whose pages `main`
iterates). -/
def activeKey (p : Params) : String :=
  if truthy p.list_databases then ("DatabaseList")
  else if truthy p.list_database_tables then ("TableMetadataList")
  else ("DataCatalogsSummary")

/-- The output key of the iterating mode selected by the flags. -/
def activeOutKey (p : Params) : String :=
  if truthy p.list_databases then ("databases")
  else if truthy p.list_database_tables then ("tables")
  else ("catalogs")

/-- The page iterator the selected iterating mode consumes. -/
def activeIter (s : Athena) (p : Params) : PageIter :=
  if truthy p.list_databases then s.listDatabasesIter (p.name.getD "")
  else if truthy p.list_database_tables then
    s.listTableMetadataIter (p.name.getD "") (p.database_name.getD "")
  else s.listDataCatalogsIter

/-- With validation passed, the client obtained and work groups not
requested, `main` runs the pagination loop of the selected mode. -/
theorem run_iter_mode (s : Athena) (p : Params)
    (hv : validationError p = none) (hc : s.clientError = none)
    (hw : truthy p.list_work_groups = false) :
    run s p = driveExit (activeKey p) (activeOutKey p) (activeIter s p) := by
  rw [run_of_validation_ok s p hv]
  unfold _athena
  rw [hc]
  unfold activeKey activeOutKey activeIter
  cases h1 : truthy p.list_databases with
  | true => simp [h1]
  | false =>
    cases h2 : truthy p.list_database_tables with
    | true => simp [h1, h2]
    | false => simp [h1, h2, hw]

/-- A validated invocation that requests work groups supplied nothing but
`list_work_groups=true`: every other option would have tripped one of the
mutual-exclusion tuples. -/
theorem validation_none_wg (p : Params) (hv : validationError p = none)
    (hw : truthy p.list_work_groups = true) :
    p = ⟨none, none, none, none, some true⟩ := by
  rcases p with ⟨n, d, l1, l2, l3⟩
  rcases l3 with _ | (_ | _)
  · simp [truthy] at hw
  · simp [truthy] at hw
  · rcases l1 with _ | (_ | _) <;> rcases l2 with _ | (_ | _) <;>
      rcases n with _ | n <;> rcases d with _ | d <;>
      first
        | rfl
        | (exfalso; simp [validationError, presentCount] at hv)

/-- An iterator yielding no pages and raising no error. -/
def emptyIter : PageIter := ⟨[], none⟩

/-- The invocation that supplies no option at all. -/
def pEmpty : Params := ⟨none, none, none, none, none⟩

/-- The invocation that supplies only `list_work_groups=true`. -/
def pWorkGroups : Params := ⟨none, none, none, none, some true⟩

/-- The raw catalog page of the spec scenario. -/
def catalogPage : Record :=
  [("DataCatalogsSummary",
    Value.list [Value.dict [("CatalogName", Value.str ("AwsDataCatalog")),
      ("Type", Value.str ("GLUE"))]])]

/-- A healthy service whose catalog listing yields the scenario page. -/
def svcCatalogs : Athena :=
  ⟨none, false, fun _ => emptyIter, fun _ _ => emptyIter, emptyIter,
    Except.ok [], ⟨[catalogPage], none⟩⟩

/-- A service on which obtaining the client raises. -/
def svcClientErr : Athena :=
  ⟨some ("EndpointConnectionError: could not connect"), false,
    fun _ => emptyIter, fun _ _ => emptyIter, emptyIter,
    Except.ok [], emptyIter⟩

/-- A raw work-group record as returned on the wire. -/
def wgRecordRaw : Value :=
  Value.dict [("Name", Value.str ("primary")), ("State", Value.str ("ENABLED"))]

/-- A raw work-groups response page. -/
def wgPage : Record := [("WorkGroups", Value.list [wgRecordRaw])]

/-- A service on which `list_work_groups` supports pagination and yields one
page. -/
def svcWGPaginated : Athena :=
  ⟨none, true, fun _ => emptyIter, fun _ _ => emptyIter, ⟨[wgPage], none⟩,
    Except.ok wgPage, emptyIter⟩

/-- A service on which `list_work_groups` does not support pagination and
the single call succeeds. -/
def svcWGSingle : Athena :=
  ⟨none, false, fun _ => emptyIter, fun _ _ => emptyIter, emptyIter,
    Except.ok wgPage, emptyIter⟩

/-- A service whose catalog page iterator yields one page and then raises
during iteration. -/
def svcCatalogTailErr : Athena :=
  ⟨none, false, fun _ => emptyIter, fun _ _ => emptyIter, emptyIter,
    Except.ok [], ⟨[catalogPage], some ("InternalError: backend failure")⟩⟩

/-- C6: the key-renaming normalizer is idempotent — for every record whose
keys, recursively through nested mappings and sequences of mappings, are
already snake_case, applying the normalizer returns the same record. -/
theorem c6_normalizer_idempotent (r : Record) (h : snakeKeysKVs r = true) :
    camel_dict_to_snake_dict r = r := by
  unfold camel_dict_to_snake_dict
  exact snakeKVs_fixed r h

/-- An already-normalized record with a nested mapping and a sequence of
mappings. -/
def snakeRec : Record :=
  [("catalog_name", Value.str ("AwsDataCatalog")),
   ("parameters", Value.dict [("created_by", Value.str ("Athena"))]),
   ("columns", Value.list [Value.dict [("name", Value.str ("c1")),
     ("type", Value.str ("string"))]])]

theorem c6_normalizer_idempotent_witness :
    snakeKeysKVs snakeRec = true ∧ camel_dict_to_snake_dict snakeRec = snakeRec :=
  ⟨rfl, c6_normalizer_idempotent snakeRec rfl⟩

/-- How many of the three mode flags were supplied as true. -/
def trueFlagCount (p : Params) : Nat :=
  (if p.list_databases = some true then 1 else 0)
    + (if p.list_database_tables = some true then 1 else 0)
    + (if p.list_work_groups = some true then 1 else 0)

/-- C3: whenever more than one of `list_databases`, `list_database_tables`,
`list_work_groups` is true, the invocation fails the mutual-exclusion
validation, before any network call: the outcome is the same validation
failure against every service. -/
theorem c3_multiple_modes_fail_validation (p : Params)
    (h : 2 ≤ trueFlagCount p) :
    validationError p = some ("parameters are mutually exclusive: list_databases, list_database_tables, list_work_groups") ∧
    ∀ s : Athena, run s p = RunResult.validationFail ("parameters are mutually exclusive: list_databases, list_database_tables, list_work_groups") := by
  have hpc : 1 < presentCount p := by
    rcases p with ⟨n, d, l1, l2, l3⟩
    rcases l1 with _ | (_ | _) <;> rcases l2 with _ | (_ | _) <;>
      rcases l3 with _ | (_ | _) <;> simp [trueFlagCount] at h <;>
      simp [presentCount]
  have hm : validationError p = some ("parameters are mutually exclusive: list_databases, list_database_tables, list_work_groups") := by
    unfold validationError
    rw [if_pos hpc]
  exact ⟨hm, fun s => run_validationFail s p _ hm⟩

/-- The invocation supplying both `list_databases=true` and
`list_database_tables=true`. -/
def pTwoFlags : Params := ⟨none, none, some true, some true, none⟩

theorem c3_multiple_modes_fail_validation_witness :
    2 ≤ trueFlagCount pTwoFlags ∧
    run svcCatalogs pTwoFlags = RunResult.validationFail ("parameters are mutually exclusive: list_databases, list_database_tables, list_work_groups") :=
  ⟨by decide, (c3_multiple_modes_fail_validation pTwoFlags (by decide)).2 svcCatalogs⟩

/-- C4: with `list_database_tables=true`, validation fails — identically
against every service, so before any network call — unless both `name` and
`database_name` were supplied (the code requires both, not only
`database_name`). -/
theorem c4_tables_require_name_and_database (p : Params)
    (ht : p.list_database_tables = some true)
    (hmiss : p.name = none ∨ p.database_name = none) :
    ∃ m, validationError p = some m ∧
      ∀ s : Athena, run s p = RunResult.validationFail m := by
  have hsome : (validationError p).isSome = true := by
    rcases p with ⟨n, d, l1, l2, l3⟩
    subst ht
    rcases hmiss with hm | hm
    · subst hm
      rcases l1 with _ | (_ | _) <;> rcases l3 with _ | (_ | _) <;>
        rcases d with _ | d <;> simp [validationError, presentCount]
    · subst hm
      rcases l1 with _ | (_ | _) <;> rcases l3 with _ | (_ | _) <;>
        rcases n with _ | n <;> simp [validationError, presentCount]
  obtain ⟨m, hm⟩ := Option.isSome_iff_exists.mp hsome
  exact ⟨m, hm, fun s => run_validationFail s p m hm⟩

/-- The invocation supplying `list_database_tables=true` with a catalog
name but no database name. -/
def pTablesMissingDb : Params :=
  ⟨some ("AwsDataCatalog"), none, none, some true, none⟩

theorem c4_tables_require_name_and_database_witness :
    validationError pTablesMissingDb = some ("list_database_tables is True but some of the following are missing: name, database_name") ∧
    run svcCatalogs pTablesMissingDb = RunResult.validationFail ("list_database_tables is True but some of the following are missing: name, database_name") := by
  obtain ⟨m, hm, hr⟩ :=
    c4_tables_require_name_and_database pTablesMissingDb rfl (Or.inr rfl)
  have h2 : (some m : Option String) = some ("list_database_tables is True but some of the following are missing: name, database_name") := by
    rw [← hm]
    rfl
  cases h2
  exact ⟨hm, hr svcCatalogs⟩

/-- C7: with `list_work_groups=true`, supplying `name` or `database_name`
fails validation — identically against every service, so before any network
call. -/
theorem c7_work_groups_excludes_names (p : Params)
    (ht : p.list_work_groups = some true)
    (hset : p.name.isSome = true ∨ p.database_name.isSome = true) :
    ∃ m, validationError p = some m ∧
      ∀ s : Athena, run s p = RunResult.validationFail m := by
  have hsome : (validationError p).isSome = true := by
    rcases p with ⟨n, d, l1, l2, l3⟩
    subst ht
    rcases hset with hs | hs
    · rcases n with _ | n
      · simp at hs
      · rcases l1 with _ | (_ | _) <;> rcases l2 with _ | (_ | _) <;>
          rcases d with _ | d <;> simp [validationError, presentCount]
    · rcases d with _ | d
      · simp at hs
      · rcases l1 with _ | (_ | _) <;> rcases l2 with _ | (_ | _) <;>
          rcases n with _ | n <;> simp [validationError, presentCount]
  obtain ⟨m, hm⟩ := Option.isSome_iff_exists.mp hsome
  exact ⟨m, hm, fun s => run_validationFail s p m hm⟩

/-- The invocation supplying `list_work_groups=true` together with a
catalog name. -/
def pWorkGroupsWithName : Params :=
  ⟨some ("AwsDataCatalog"), none, none, none, some true⟩

theorem c7_work_groups_excludes_names_witness :
    validationError pWorkGroupsWithName = some ("parameters are mutually exclusive: name, list_work_groups") ∧
    run svcWGSingle pWorkGroupsWithName = RunResult.validationFail ("parameters are mutually exclusive: name, list_work_groups") := by
  obtain ⟨m, hm, hr⟩ :=
    c7_work_groups_excludes_names pWorkGroupsWithName rfl (Or.inl rfl)
  have h2 : (some m : Option String) = some ("parameters are mutually exclusive: name, list_work_groups") := by
    rw [← hm]
    rfl
  cases h2
  exact ⟨hm, hr svcWGSingle⟩

/-- C2: a non-retryable service error never yields output or a partial
record set: (a) an error obtaining the client is converted by
`fail_json_aws` into the module diagnostic for every validated invocation,
and no output key is produced; (b) likewise for an error of the single
non-paginated work-groups call; (c) the pagination loop hands records to
`exit_json` only when the iterator raised no error, and then they are
exactly the full normalized record set of all pages, never a partial one. -/
theorem c2_service_error_fails_without_output :
    (∀ (s : Athena) (p : Params) (e : String),
      validationError p = none → s.clientError = some e →
      run s p = RunResult.awsFail (awsDiag e) ∧
      ∀ (k : String) (recs : List Value), run s p ≠ RunResult.exits k recs) ∧
    (∀ (s : Athena) (p : Params) (e : String),
      validationError p = none → truthy p.list_work_groups = true →
      s.clientError = none → s.canPaginateListWorkGroups = false →
      s.listWorkGroupsCall = Except.error e →
      run s p = RunResult.awsFail (awsDiag e) ∧
      ∀ (k : String) (recs : List Value), run s p ≠ RunResult.exits k recs) ∧
    (∀ (key : String) (pages : List Record) (err : Option String)
      (recs : List Value),
      drivePages key pages err = Except.ok recs →
      err = none ∧ recs = allRecords key pages) := by
  refine ⟨?_, ?_, drivePages_ok⟩
  · intro s p e hv he
    have ha : _athena s p = Except.error (awsDiag e) := by
      unfold _athena
      rw [he]
    have hr := run_awsFail s p (awsDiag e) hv ha
    refine ⟨hr, ?_⟩
    intro k recs hcontra
    rw [hr] at hcontra
    exact RunResult.noConfusion hcontra
  · intro s p e hv hw hc hcp hcall
    have hp := validation_none_wg p hv hw
    subst hp
    have ha : _athena s ⟨none, none, none, none, some true⟩ =
        Except.error (awsDiag e) := by
      simp [_athena, hc, hcp, hcall, truthy]
    have hr := run_awsFail s ⟨none, none, none, none, some true⟩ (awsDiag e) hv ha
    refine ⟨hr, ?_⟩
    intro k recs hcontra
    rw [hr] at hcontra
    exact RunResult.noConfusion hcontra

theorem c2_service_error_fails_without_output_witness :
    run svcClientErr pEmpty =
      RunResult.awsFail (awsDiag ("EndpointConnectionError: could not connect")) :=
  (c2_service_error_fails_without_output.1 svcClientErr pEmpty
    ("EndpointConnectionError: could not connect") rfl rfl).1

/-- C1: evaluation at the failing input.  With `list_work_groups=true` and a
service on which the operation is paginatable (as on the real one), `main`
subscripts the page iterator returned by `_athena` and crashes with a
TypeError instead of exiting with the flattened `work_groups`; only the
non-paginated single-response half behaves as the claim states. -/
theorem c1_work_groups_paginated_crashes :
    run svcWGPaginated pWorkGroups =
      RunResult.crash ("TypeError: PageIterator object is not subscriptable") ∧
    (∀ recs : List Value,
      run svcWGPaginated pWorkGroups ≠ RunResult.exits ("work_groups") recs) ∧
    run svcWGSingle pWorkGroups =
      RunResult.exits ("work_groups")
        [Value.dict [("name", Value.str ("primary")),
          ("state", Value.str ("ENABLED"))]] := by
  refine ⟨rfl, ?_, rfl⟩
  intro recs hcontra
  have hr : run svcWGPaginated pWorkGroups =
      RunResult.crash ("TypeError: PageIterator object is not subscriptable") := rfl
  rw [hr] at hcontra
  exact RunResult.noConfusion hcontra

/-- C5 fails as stated: this invocation supplies no mode flag (so none of
the three flags is true), yet against a service on which obtaining the
client raises, the module fails and returns no `catalogs` at all. -/
theorem c5_counterexample_client_error :
    trueFlagCount pEmpty = 0 ∧
    run svcClientErr pEmpty =
      RunResult.awsFail (awsDiag ("EndpointConnectionError: could not connect")) ∧
    ∀ recs : List Value,
      run svcClientErr pEmpty ≠ RunResult.exits ("catalogs") recs := by
  refine ⟨rfl, rfl, ?_⟩
  intro recs hcontra
  have hr : run svcClientErr pEmpty =
      RunResult.awsFail (awsDiag ("EndpointConnectionError: could not connect")) := rfl
  rw [hr] at hcontra
  exact RunResult.noConfusion hcontra

/-- C5 (amended): for every invocation that passes validation, in which
none of the three mode flags is true, and whose catalog calls succeed (the
client is obtained, every page is fetched without error and carries the
result key as a list), the default catalog path executes and the module
exits with `catalogs` holding the full normalized record set; in particular
the spec scenario — no options, one raw page with CatalogName/Type — yields
the snake_case catalogs output. -/
theorem c5_default_mode_returns_catalogs :
    (∀ (s : Athena) (p : Params),
      validationError p = none →
      truthy p.list_databases = false →
      truthy p.list_database_tables = false →
      truthy p.list_work_groups = false →
      s.clientError = none →
      s.listDataCatalogsIter.tailError = none →
      (∀ pg ∈ s.listDataCatalogsIter.pages,
        goodPage ("DataCatalogsSummary") pg = true) →
      run s p = RunResult.exits ("catalogs")
        (allRecords ("DataCatalogsSummary") s.listDataCatalogsIter.pages)) ∧
    run svcCatalogs pEmpty = RunResult.exits ("catalogs")
      [Value.dict [("catalog_name", Value.str ("AwsDataCatalog")),
        ("type", Value.str ("GLUE"))]] := by
  constructor
  · intro s p hv h1 h2 hw hc htail hgood
    have hk : activeKey p = ("DataCatalogsSummary") := by
      simp [activeKey, h1, h2]
    have ho : activeOutKey p = ("catalogs") := by
      simp [activeOutKey, h1, h2]
    have hi : activeIter s p = s.listDataCatalogsIter := by
      simp [activeIter, h1, h2]
    rw [run_iter_mode s p hv hc hw, hk, ho, hi]
    unfold driveExit
    rw [htail,
      drivePages_complete ("DataCatalogsSummary") s.listDataCatalogsIter.pages hgood]
  · rfl

theorem c5_default_mode_returns_catalogs_witness :
    run svcCatalogs pEmpty = RunResult.exits ("catalogs")
      (allRecords ("DataCatalogsSummary") svcCatalogs.listDataCatalogsIter.pages) :=
  c5_default_mode_returns_catalogs.1 svcCatalogs pEmpty rfl rfl rfl rfl rfl rfl
    (by
      intro pg hpg
      have hL : svcCatalogs.listDataCatalogsIter.pages = [catalogPage] := rfl
      rw [hL, List.mem_singleton] at hpg
      subst hpg
      rfl)

/-- C8: the try/except conversion and the retry decorator wrap only
`_athena`, which merely constructs the iterator; in the iterating modes a
service error raised by the iterator inside the loops of `main`, after the
yielded pages, escapes as the raw uncaught exception — it is never
converted into the module diagnostic failure (and the loop sits outside the
decorated function, so no retry applies to it). -/
theorem c8_iteration_error_not_converted (s : Athena) (p : Params) (e : String)
    (hv : validationError p = none) (hc : s.clientError = none)
    (hw : truthy p.list_work_groups = false)
    (hpages : 1 ≤ (activeIter s p).pages.length)
    (hgood : ∀ pg ∈ (activeIter s p).pages, goodPage (activeKey p) pg = true)
    (htail : (activeIter s p).tailError = some e) :
    run s p = RunResult.crash e ∧
    ∀ m : String, run s p ≠ RunResult.awsFail m := by
  have hd : run s p = RunResult.crash e := by
    rw [run_iter_mode s p hv hc hw]
    unfold driveExit
    rw [htail, drivePages_tail_error (activeKey p) (activeIter s p).pages e hgood]
  refine ⟨hd, ?_⟩
  intro m hcontra
  rw [hd] at hcontra
  exact RunResult.noConfusion hcontra

theorem c8_iteration_error_not_converted_witness :
    run svcCatalogTailErr pEmpty =
      RunResult.crash ("InternalError: backend failure") :=
  (c8_iteration_error_not_converted svcCatalogTailErr pEmpty
    ("InternalError: backend failure") rfl rfl rfl (by decide)
    (by
      intro pg hpg
      have hL : (activeIter svcCatalogTailErr pEmpty).pages = [catalogPage] := rfl
      rw [hL, List.mem_singleton] at hpg
      subst hpg
      rfl)
    rfl).1

/-- Drop a mode flag that was supplied as false, keep everything else. -/
def unsetFalse : Option Bool → Option Bool
  | some false => none
  | o => o

/-- The same invocation with every false mode flag left unsupplied. -/
def dropFalseFlags (p : Params) : Params :=
  ⟨p.name, p.database_name, unsetFalse p.list_databases,
    unsetFalse p.list_database_tables, unsetFalse p.list_work_groups⟩

/-- C9: on a validated invocation, a mode flag supplied as false dispatches
exactly like an unset one — the outcome is unchanged when all false flags
are dropped; in particular `list_databases=false` alone takes the default
catalog path and returns `catalogs`. -/
theorem c9_false_flag_like_unset :
    (∀ (s : Athena) (p : Params), validationError p = none →
      run s p = run s (dropFalseFlags p)) ∧
    run svcCatalogs ⟨none, none, some false, none, none⟩ =
      RunResult.exits ("catalogs")
        [Value.dict [("catalog_name", Value.str ("AwsDataCatalog")),
          ("type", Value.str ("GLUE"))]] := by
  constructor
  · intro s p hv
    rcases p with ⟨n, d, l1, l2, l3⟩
    rcases l1 with _ | (_ | _) <;> rcases l2 with _ | (_ | _) <;>
      rcases l3 with _ | (_ | _) <;> rcases n with _ | n <;>
      rcases d with _ | d <;>
      first
        | rfl
        | (exfalso; simp [validationError, presentCount] at hv)
  · rfl

theorem c9_false_flag_like_unset_witness :
    run svcCatalogs ⟨none, none, some false, none, none⟩ =
      run svcCatalogs (dropFalseFlags ⟨none, none, some false, none, none⟩) :=
  c9_false_flag_like_unset.1 svcCatalogs ⟨none, none, some false, none, none⟩ rfl

/-- The same invocation with `database_name` replaced. -/
def withDatabaseName (p : Params) (d : Option String) : Params :=
  ⟨p.name, d, p.list_databases, p.list_database_tables, p.list_work_groups⟩

/-- C10: when `list_database_tables` is not true and `list_work_groups` is
unset, `database_name` never influences the outcome: two invocations
differing only in it validate identically, issue the identical fetch, and
produce the identical result. -/
theorem c10_database_name_irrelevant (s : Athena) (p : Params)
    (d d' : Option String)
    (ht : p.list_database_tables ≠ some true)
    (hw : p.list_work_groups = none) :
    validationError (withDatabaseName p d) =
      validationError (withDatabaseName p d') ∧
    _athena s (withDatabaseName p d) = _athena s (withDatabaseName p d') ∧
    run s (withDatabaseName p d) = run s (withDatabaseName p d') := by
  rcases p with ⟨n, dn, l1, l2, l3⟩
  subst hw
  rcases l2 with _ | (_ | _)
  · rcases l1 with _ | (_ | _) <;> rcases n with _ | n <;>
      refine ⟨?_, ?_, ?_⟩ <;>
      simp [run, _athena, validationError, presentCount, truthy,
        withDatabaseName]
  · rcases l1 with _ | (_ | _) <;> rcases n with _ | n <;>
      refine ⟨?_, ?_, ?_⟩ <;>
      simp [run, _athena, validationError, presentCount, truthy,
        withDatabaseName]
  · exact absurd rfl ht

theorem c10_database_name_irrelevant_witness :
    run svcCatalogs (withDatabaseName pEmpty (some ("sampledb"))) =
      run svcCatalogs (withDatabaseName pEmpty none) :=
  (c10_database_name_irrelevant svcCatalogs pEmpty (some ("sampledb")) none
    (by decide) rfl).2.2
